import Mathlib

/-!
Verification of the `linux-persistence-privilege-detection` analyzer.

This file gives a shallow embedding, in Lean 4, of the snapshot/diff/alert
core of the repository:

* `analyzer/detector.py` — `diff_lists`, `collect_users`, `run_cmd`,
  `collect_suid_limited`, `load_baseline`, and the alert/report assembly in
  `main`;
* `analyzer/baseline_collector.py` — the module-level user collection and
  SUID scan.

Python primitives used by the code (`str.split`, `str.splitlines`,
`str.strip`, `str.startswith`, `int()`, `sorted`, `set`) are modelled by
executable Lean functions over `List Char` / `String` defined below, so that
every definition evaluates inside the kernel.  Sorting uses the code-point
lexicographic order on strings, which is exactly the order Python's `sorted`
uses on `str` values.

External effects (reading `/etc/passwd`, invoking subprocesses) are made
explicit parameters: a snapshot builder takes the raw text it would have
read, and a command runner takes the outcome of the subprocess call.
-/

/-! ### Models of the Python string primitives -/

/-- Split a character list at every occurrence of `sep`; models Python
`str.split(sep)` at the character level.  Always returns at least one
(possibly empty) part, like `"".split(":") == [""]`. -/
def splitOnChar (sep : Char) : List Char → List (List Char)
  | [] => [[]]
  | c :: cs =>
    match splitOnChar sep cs with
    | [] => if c = sep then [[], []] else [[c]]
    | h :: t => if c = sep then [] :: h :: t else (c :: h) :: t

/-- Models Python `s.split(sep)` for a single-character separator. -/
def pySplit (s : String) (sep : Char) : List String :=
  (splitOnChar sep s.data).map (fun cs => ⟨cs⟩)

/-- Models Python `str.splitlines()` for `\n`-separated text: split at every
newline and drop the trailing empty piece produced by a final newline
(`"".splitlines() == []`, `"a\n".splitlines() == ["a"]`). -/
def splitlines (s : String) : List String :=
  let parts := splitOnChar (Char.ofNat 10) s.data
  let parts := if parts.getLast? = some [] then parts.dropLast else parts
  parts.map (fun cs => ⟨cs⟩)

/-- Python whitespace for `str.strip()`: space, tab, LF, CR, VT, FF. -/
def isPySpace (c : Char) : Bool := [32, 9, 10, 13, 11, 12].contains c.toNat

/-- Models Python `str.strip()`. -/
def pyStrip (s : String) : String :=
  ⟨((s.data.dropWhile isPySpace).reverse.dropWhile isPySpace).reverse⟩

/-- Models Python `s.startswith(t)`. -/
def pyStartsWith (s t : String) : Bool := t.data.isPrefixOf s.data

/-- Accumulating decimal parser: `none` as soon as a non-digit appears. -/
def digitsToNat : List Char → Nat → Option Nat
  | [], acc => some acc
  | c :: cs, acc =>
    if 48 ≤ c.toNat ∧ c.toNat ≤ 57 then digitsToNat cs (acc * 10 + (c.toNat - 48))
    else none

/-- Models Python `int(s)` on decimal input: strip whitespace, allow one
optional leading sign, then require one or more digits.  `none` models the
`ValueError` raised on anything else. -/
def pyInt (s : String) : Option Int :=
  match (pyStrip s).data with
  | [] => none
  | c :: cs =>
    if c = Char.ofNat 45 then
      match cs with
      | [] => none
      | _ :: _ => (digitsToNat cs 0).map (fun n => -(n : Int))
    else if c = Char.ofNat 43 then
      match cs with
      | [] => none
      | _ :: _ => (digitsToNat cs 0).map (fun n => (n : Int))
    else (digitsToNat (c :: cs) 0).map (fun n => (n : Int))

/-- Code-point sequence of a string; Python compares `str` values by exactly
this sequence. -/
def strKey (s : String) : List Nat := s.data.map Char.toNat

/-- The string order used by Python's `sorted` on `str`: lexicographic on
code points. -/
def pyLe (a b : String) : Prop := strKey a ≤ strKey b

instance decPyLe : DecidableRel pyLe :=
  fun a b => inferInstanceAs (Decidable (strKey a ≤ strKey b))

instance totalPyLe : IsTotal String pyLe :=
  ⟨fun a b => le_total (strKey a) (strKey b)⟩

instance transPyLe : IsTrans String pyLe :=
  ⟨fun _ _ _ h₁ h₂ => le_trans h₁ h₂⟩

/-- Models Python `sorted` on a list of strings. -/
def pySorted (l : List String) : List String := List.insertionSort pyLe l

/-- Python `repr` of a string (no escaping needed for the path/user/service
strings this program handles): the text wrapped in single quotes. -/
def pyQuote (s : String) : String := ⟨Char.ofNat 39 :: (s.data ++ [Char.ofNat 39])⟩

/-- Python `repr`/f-string rendering of a list of strings, e.g. `['a', 'b']`. -/
def pyListRepr (l : List String) : String :=
  "[" ++ String.intercalate ", " (l.map pyQuote) ++ "]"

/-! ### The Diff Engine: `diff_lists` (detector.py lines 160-165) -/

/-- Embeds `diff_lists(old_list, new_list)` after the `or []` coercions:
`added = sorted(set(new) - set(old))`, `removed = sorted(set(old) - set(new))`.
`List.dedup` plays the role of `set(...)` (order is irrelevant because both
results are sorted). -/
def diff_lists (old_list new_list : List String) : List String × List String :=
  let old_set := old_list.dedup
  let new_set := new_list.dedup
  (pySorted (new_set.filter (fun x => decide (x ∉ old_set))),
   pySorted (old_set.filter (fun x => decide (x ∉ new_set))))

/-- Embeds the `old_list or []` / `new_list or []` coercions of `diff_lists`:
a `None` argument (and likewise an empty list) is treated as the empty set. -/
def diff_lists_opt (old? new? : Option (List String)) : List String × List String :=
  diff_lists (old?.getD []) (new?.getD [])

/-! ### Basic lemmas about the primitives -/

theorem mem_pySorted {l : List String} {x : String} : x ∈ pySorted l ↔ x ∈ l :=
  (List.perm_insertionSort pyLe l).mem_iff

theorem sorted_pySorted (l : List String) : (pySorted l).Sorted pyLe :=
  List.sorted_insertionSort pyLe l

theorem nodup_pySorted {l : List String} (h : l.Nodup) : (pySorted l).Nodup :=
  ((List.perm_insertionSort pyLe l).nodup_iff).mpr h

theorem strData_append (a b : String) : (a ++ b).data = a.data ++ b.data := rfl

theorem mem_diff_lists_added (old new : List String) (x : String) :
    x ∈ (diff_lists old new).1 ↔ x ∈ new ∧ x ∉ old := by
  simp [diff_lists, mem_pySorted, List.mem_filter]

theorem mem_diff_lists_removed (old new : List String) (x : String) :
    x ∈ (diff_lists old new).2 ↔ x ∈ old ∧ x ∉ new := by
  simp [diff_lists, mem_pySorted, List.mem_filter]

theorem sorted_diff_lists (old new : List String) :
    (diff_lists old new).1.Sorted pyLe ∧ (diff_lists old new).2.Sorted pyLe :=
  ⟨sorted_pySorted _, sorted_pySorted _⟩

theorem nodup_diff_lists (old new : List String) :
    (diff_lists old new).1.Nodup ∧ (diff_lists old new).2.Nodup :=
  ⟨nodup_pySorted ((List.nodup_dedup new).filter _),
   nodup_pySorted ((List.nodup_dedup old).filter _)⟩

/-! ### Snapshot Builder: `collect_users` (detector.py lines 58-76) -/

/-- One `users` entry: `{"user": name, "uid": uid}`. -/
structure UserEntry where
  user : String
  uid : Int
deriving DecidableEq

/-- Result of `collect_users`: the `users` and `uid0_users` fields. -/
structure UsersResult where
  users : List UserEntry
  uid0_users : List String
deriving DecidableEq

/-- Embeds the per-line logic of the `collect_users` loop: skip empty and
`#`-comment lines, split on `:`, skip lines with fewer than 3 fields, skip
lines whose uid field is not an integer (`ValueError`), otherwise keep
`{"user": parts[0], "uid": int(parts[2])}`. -/
def parsePasswdLine (line : String) : Option UserEntry :=
  if line = "" || pyStartsWith line "#" then none
  else
    let parts := pySplit line (Char.ofNat 58)
    if parts.length < 3 then none
    else
      match pyInt (parts.getD 2 "") with
      | none => none
      | some uid => some ⟨parts.getD 0 "", uid⟩

/-- Embeds `collect_users()` of detector.py, with the raw text of
`/etc/passwd` (as returned by `read_file`) passed in explicitly. -/
def collectUsersStep (acc : List UserEntry × List String) (line : String) :
    List UserEntry × List String :=
  match parsePasswdLine line with
  | none => acc
  | some u => (acc.1 ++ [u], if u.uid = 0 then acc.2 ++ [u.user] else acc.2)

def collect_users (passwd : String) : UsersResult :=
  let acc := (splitlines passwd).foldl collectUsersStep ([], [])
  ⟨acc.1, pySorted acc.2⟩

/-! ### Snapshot Builder of baseline_collector.py (lines 14-25)

Unlike `collect_users`, the module-level loop of `baseline_collector.py`
guards nothing: `parts[2]` raises `IndexError` on a line with fewer than
three `:`-fields and `int(parts[2])` raises `ValueError` on a non-numeric
uid field, and neither exception is caught anywhere in the script. -/

/-- A Python exception escaping the baseline user-collection loop. -/
inductive PyError where
  | indexError
  | valueError
deriving DecidableEq

/-- One baseline `users` entry: `{"username", "uid", "shell"}`. -/
structure BUser where
  username : String
  uid : Int
  shell : String
deriving DecidableEq

/-- Embeds one iteration of the baseline_collector user loop:
`parts = line.strip().split(":")`, `parts[0]`, `int(parts[2])`,
`parts[-1]`, with the two uncaught exception outcomes made explicit. -/
def parseBaselineUser (line : String) : Except PyError BUser :=
  let parts := pySplit (pyStrip line) (Char.ofNat 58)
  if parts.length < 3 then .error .indexError
  else
    match pyInt (parts.getD 2 "") with
    | none => .error .valueError
    | some uid => .ok ⟨parts.getD 0 "", uid, parts.getLastD ""⟩

/-- The loop of baseline_collector.py lines 15-25, accumulating `users` and
`uid_0_accounts` and stopping at the first uncaught exception. -/
def baselineUsersLoop : List String → List BUser × List String →
    Except PyError (List BUser × List String)
  | [], acc => .ok acc
  | line :: rest, acc =>
    match parseBaselineUser line with
    | .error e => .error e
    | .ok u =>
      baselineUsersLoop rest
        (acc.1 ++ [u], if u.uid = 0 then acc.2 ++ [u.username] else acc.2)

/-- Embeds the module-level user collection of baseline_collector.py: build
`users` and `uid_0_accounts` from the lines of `/etc/passwd`, or abort with
the first uncaught exception. -/
def baselineCollectUsers (passwd : String) :
    Except PyError (List BUser × List String) :=
  baselineUsersLoop (splitlines passwd) ([], [])

/-! ### Fact collection and its failure handling -/

/-- Outcome of a `subprocess.check_output` call, as observed by the caller:
normal output, `TimeoutExpired`, or any other exception
(`CalledProcessError`, `FileNotFoundError`, ...). -/
inductive CmdOutcome where
  | ok (out : String)
  | timeoutExpired
  | processError
deriving DecidableEq

/-- Embeds the `run_cmd` helper of detector.py (lines 15-26): return the stripped
stdout, and degrade every exception to the empty string. -/
def runCmd (outcome : CmdOutcome) : String :=
  match outcome with
  | .ok out => pyStrip out
  | .timeoutExpired => ""
  | .processError => ""

/-- The fixed allow-list of SUID scan directories (both scripts). -/
def suid_dirs : List String := ["/bin", "/sbin", "/usr/bin", "/usr/sbin"]

/-- Embeds `collect_suid_limited()` of detector.py (lines 134-145): per
directory, take the command helper's (always defined) output and extend the list when
it is non-empty; finally `sorted(set(...))`. -/
def collect_suid_limited (invoke : String → CmdOutcome) : List String :=
  let files := suid_dirs.foldl
    (fun acc d =>
      let out := runCmd (invoke d)
      if out = "" then acc else acc ++ splitlines out)
    []
  pySorted files.dedup

/-- The SUID scan loop of baseline_collector.py (lines 58-68): only
`subprocess.TimeoutExpired` is caught (`continue`); every other exception
escapes the loop. -/
def baselineSuidLoop (invoke : String → CmdOutcome) :
    List String → List String → Except Unit (List String)
  | [], acc => .ok acc
  | d :: rest, acc =>
    match invoke d with
    | .ok out => baselineSuidLoop invoke rest (acc ++ splitlines out)
    | .timeoutExpired => baselineSuidLoop invoke rest acc
    | .processError => .error ()

/-- Embeds the module-level SUID scan of baseline_collector.py lines 54-70:
the loop over `suid_dirs` followed by `sorted(suid_files)`. -/
def baselineSuidScan (invoke : String → CmdOutcome) : Except Unit (List String) :=
  (baselineSuidLoop invoke suid_dirs []).map pySorted

/-! ### The state read by `main` (detector.py lines 178-246)

`main` reads baseline and current state through `.get(key, default)`, so a
missing key behaves exactly like the default value; a state record with the
defaulted fields therefore models both. -/

/-- The categories `main` actually consumes from a snapshot record. -/
structure HostState where
  generated_at : String
  uid0_users : List String
  suid_files : List String
  sudoers_d_files : List String
  enabled_services : String
  cron_dirs : List (String × List String)
deriving DecidableEq

/-- `baseline.get("cron_dirs", {}).get(d, [])`. -/
def cronList (s : HostState) (d : String) : List String :=
  (s.cron_dirs.lookup d).getD []

/-- The fixed five cron directories of the detection loop (line 220). -/
def cron_dir_names : List String :=
  ["/etc/cron.d", "/etc/cron.daily", "/etc/cron.hourly", "/etc/cron.weekly",
   "/etc/cron.monthly"]

/-- `' ...' if len(l) > 10 else ''` (the display-truncation marker). -/
def ellipsisIf (l : List String) : String := if 10 < l.length then " ..." else ""

/-- detector.py line 189. -/
def uid0AlertMsg (added : List String) : String :=
  "[ALERT] New UID=0 user(s) detected: " ++ pyListRepr added

/-- detector.py line 194. -/
def suidAddedMsg (added : List String) : String :=
  "[ALERT] New SUID binaries found: " ++ pyListRepr (added.take 10) ++ ellipsisIf added

/-- detector.py line 196. -/
def suidRemovedMsg (removed : List String) : String :=
  "[INFO] SUID binaries removed: " ++ pyListRepr (removed.take 10) ++ ellipsisIf removed

/-- detector.py line 204. -/
def sudoersAddedMsg (added : List String) : String :=
  "[ALERT] New /etc/sudoers.d file(s): " ++ pyListRepr added

/-- detector.py line 206. -/
def sudoersRemovedMsg (removed : List String) : String :=
  "[INFO] Removed /etc/sudoers.d file(s): " ++ pyListRepr removed

/-- detector.py line 215. -/
def servicesAddedMsg (added : List String) : String :=
  "[ALERT] New enabled service entries detected (possible persistence): "
    ++ pyListRepr (added.take 10) ++ ellipsisIf added

/-- detector.py line 217. -/
def servicesRemovedMsg (removed : List String) : String :=
  "[INFO] Enabled service entries removed: " ++ pyListRepr (removed.take 10)
    ++ ellipsisIf removed

/-- detector.py line 225. -/
def cronAddedMsg (dir : String) (added : List String) : String :=
  "[ALERT] New cron file(s) in " ++ dir ++ ": " ++ pyListRepr added

/-- detector.py line 227. -/
def cronRemovedMsg (dir : String) (removed : List String) : String :=
  "[INFO] Removed cron file(s) in " ++ dir ++ ": " ++ pyListRepr removed

/-- Lines 184-189: only the `added` side of the uid-0 diff is bound
(`added_uid0, _ = diff_lists(...)`); the removed side is discarded. -/
def uid0Alerts (added : List String) : List String :=
  if added.isEmpty then [] else [uid0AlertMsg added]

/-- Lines 192-196. -/
def suidAlerts (d : List String × List String) : List String :=
  (if d.1.isEmpty then [] else [suidAddedMsg d.1])
    ++ (if d.2.isEmpty then [] else [suidRemovedMsg d.2])

/-- Lines 199-206. -/
def sudoersAlerts (d : List String × List String) : List String :=
  (if d.1.isEmpty then [] else [sudoersAddedMsg d.1])
    ++ (if d.2.isEmpty then [] else [sudoersRemovedMsg d.2])

/-- Lines 210-213: the enabled-service listing is diffed as a set of raw
text lines; the code inlines the same set operations as `diff_lists`. -/
def serviceDiff (b c : HostState) : List String × List String :=
  diff_lists (splitlines b.enabled_services) (splitlines c.enabled_services)

/-- Lines 214-217. -/
def servicesAlerts (d : List String × List String) : List String :=
  (if d.1.isEmpty then [] else [servicesAddedMsg d.1])
    ++ (if d.2.isEmpty then [] else [servicesRemovedMsg d.2])

/-- Lines 223-227, for one cron directory. -/
def cronAlerts (dir : String) (d : List String × List String) : List String :=
  (if d.1.isEmpty then [] else [cronAddedMsg dir d.1])
    ++ (if d.2.isEmpty then [] else [cronRemovedMsg dir d.2])

/-- The full ordered `alerts` list assembled by `main` (lines 182-227). -/
def mainAlerts (b c : HostState) : List String :=
  uid0Alerts (diff_lists b.uid0_users c.uid0_users).1
    ++ suidAlerts (diff_lists b.suid_files c.suid_files)
    ++ sudoersAlerts (diff_lists b.sudoers_d_files c.sudoers_d_files)
    ++ servicesAlerts (serviceDiff b c)
    ++ (cron_dir_names.map
          (fun d => cronAlerts d (diff_lists (cronList b d) (cronList c d)))).flatten

/-- The `diff` object of `report_obj` (lines 238-246).  Note that it has a
`uid0_added` field but no `uid0_removed` field, and no cron fields. -/
structure ReportDiff where
  uid0_added : List String
  suid_added : List String
  suid_removed : List String
  sudoers_d_added : List String
  sudoers_d_removed : List String
  enabled_services_added : List String
  enabled_services_removed : List String
deriving DecidableEq

/-- `report_obj` (lines 235-247). -/
structure Report where
  generated_at : String
  alerts : List String
  diff : ReportDiff
deriving DecidableEq

/-- Assembles `report_obj` exactly as `main` does. -/
def mainReport (b c : HostState) : Report :=
  { generated_at := c.generated_at
    alerts := mainAlerts b c
    diff :=
      { uid0_added := (diff_lists b.uid0_users c.uid0_users).1
        suid_added := (diff_lists b.suid_files c.suid_files).1
        suid_removed := (diff_lists b.suid_files c.suid_files).2
        sudoers_d_added := (diff_lists b.sudoers_d_files c.sudoers_d_files).1
        sudoers_d_removed := (diff_lists b.sudoers_d_files c.sudoers_d_files).2
        enabled_services_added := (serviceDiff b c).1
        enabled_services_removed := (serviceDiff b c).2 } }

/-- Line 263. -/
def okMessage : String := "[OK] No suspicious changes detected compared to baseline."

/-- Lines 257-263: the alert lines of the human-readable report; when the
alerts list is empty a single `[OK]` line is rendered instead. -/
def reportAlertLines (alerts : List String) : List String :=
  if alerts.isEmpty then [okMessage] else alerts

/-- `msg` carries severity tag `tag` when it starts with it, exactly as the
code prefixes each alert string with `[ALERT]`, `[INFO]` or `[OK]`. -/
def hasSeverity (tag msg : String) : Bool := pyStartsWith msg tag

/-- `BASELINE_PATH` as printed by `load_baseline`, relative to the repo. -/
def baselinePathStr : String := "baseline/baseline_state.json"

/-- The two diagnostic lines of `load_baseline` (lines 170-171). -/
def baselineNotFoundMsgs : List String :=
  ["[ERROR] Baseline not found: " ++ baselinePathStr,
   "Run: sudo python3 analyzer/baseline_collector.py first"]

/-- Embeds `load_baseline` (lines 168-175): a missing baseline file raises
`SystemExit(1)` after printing the two diagnostic lines; otherwise the
stored record is returned. -/
def load_baseline (stored : Option HostState) :
    Except (Nat × List String) HostState :=
  match stored with
  | none => .error (1, baselineNotFoundMsgs)
  | some b => .ok b

/-- Embeds the control flow of `main` (lines 178-180 and onward):
`load_baseline()` runs first; only when it succeeds is the current state
collected (`collect`) and the report assembled.  The error carries the exit
status and the printed diagnostics. -/
def mainRun (stored : Option HostState) (collect : Unit → HostState) :
    Except (Nat × List String) Report :=
  match load_baseline stored with
  | .error e => .error e
  | .ok b => .ok (mainReport b (collect ()))

/-- `Except` success test (for stating that no report is produced). -/
def exceptIsOk {ε α : Type} : Except ε α → Bool
  | .ok _ => true
  | .error _ => false

/-- The all-empty host state, used as a concrete evaluation point. -/
def emptyState : HostState :=
  { generated_at := "t0"
    uid0_users := []
    suid_files := []
    sudoers_d_files := []
    enabled_services := ""
    cron_dirs := [] }

/-- "Both the added and the removed diff sets are empty for every category":
the hypothesis of the classifier-monotonicity claim, stated with the same
per-category diffs `main` computes. -/
def allDiffsEmpty (b c : HostState) : Prop :=
  diff_lists b.uid0_users c.uid0_users = ([], [])
    ∧ diff_lists b.suid_files c.suid_files = ([], [])
    ∧ diff_lists b.sudoers_d_files c.sudoers_d_files = ([], [])
    ∧ serviceDiff b c = ([], [])
    ∧ ∀ d ∈ cron_dir_names, diff_lists (cronList b d) (cronList c d) = ([], [])

instance decAllDiffsEmpty (b c : HostState) : Decidable (allDiffsEmpty b c) := by
  unfold allDiffsEmpty
  infer_instance

/-! ### Claim theorems -/

/-- C3: for any two input lists (including empty ones), `diff_lists` returns
`added` = the set difference current − baseline and `removed` = baseline −
current, each deduplicated and presented as a sorted sequence; being a Lean
function over all `List String` inputs it is total and pure by
construction. -/
theorem diff_lists_is_setdiff_sorted (old_list new_list : List String) :
    (∀ x, x ∈ (diff_lists old_list new_list).1 ↔ x ∈ new_list ∧ x ∉ old_list)
    ∧ (∀ x, x ∈ (diff_lists old_list new_list).2 ↔ x ∈ old_list ∧ x ∉ new_list)
    ∧ (diff_lists old_list new_list).1.Sorted pyLe
    ∧ (diff_lists old_list new_list).2.Sorted pyLe
    ∧ (diff_lists old_list new_list).1.Nodup
    ∧ (diff_lists old_list new_list).2.Nodup :=
  ⟨mem_diff_lists_added old_list new_list,
   mem_diff_lists_removed old_list new_list,
   (sorted_diff_lists old_list new_list).1, (sorted_diff_lists old_list new_list).2,
   (nodup_diff_lists old_list new_list).1, (nodup_diff_lists old_list new_list).2⟩

/-- Concrete instantiation of the `diff_lists` contract. -/
theorem diff_lists_is_setdiff_sorted_witness :
    "b" ∈ (diff_lists ["a"] ["a", "b"]).1 :=
  ((diff_lists_is_setdiff_sorted ["a"] ["a", "b"]).1 "b").mpr (by decide)

/-- C4: the added component of `diff_lists A B` equals the removed component
of `diff_lists B A` and vice versa, and `diff_lists A A` is a pair of empty
lists. -/
theorem diff_lists_swap_antisymm (A B : List String) :
    (diff_lists A B).1 = (diff_lists B A).2
    ∧ (diff_lists A B).2 = (diff_lists B A).1
    ∧ diff_lists A A = ([], []) := by
  refine ⟨rfl, rfl, ?_⟩
  have h : A.dedup.filter (fun x => decide (x ∉ A.dedup)) = [] := by
    simp [List.filter_eq_nil_iff]
  show (pySorted (A.dedup.filter fun x => decide (x ∉ A.dedup)),
        pySorted (A.dedup.filter fun x => decide (x ∉ A.dedup))) = ([], [])
  rw [h]
  rfl

/-- Concrete instantiation of the swap/idempotence property. -/
theorem diff_lists_swap_antisymm_witness :
    diff_lists ["a"] ["a"] = ([], []) :=
  (diff_lists_swap_antisymm ["a"] ["a"]).2.2

/-- C10: a `None` input to the diff is treated as the empty set:
`diff(None, xs)` returns the deduplicated sorted elements of `xs` as `added`
with empty `removed`, and `diff(xs, None)` returns them as `removed` with
empty `added`. -/
theorem diff_lists_none_as_empty (xs : List String) :
    (∀ a, a ∈ (diff_lists_opt none (some xs)).1 ↔ a ∈ xs)
    ∧ (diff_lists_opt none (some xs)).1.Sorted pyLe
    ∧ (diff_lists_opt none (some xs)).1.Nodup
    ∧ (diff_lists_opt none (some xs)).2 = []
    ∧ (diff_lists_opt (some xs) none).2 = (diff_lists_opt none (some xs)).1
    ∧ (diff_lists_opt (some xs) none).1 = [] := by
  refine ⟨?_, sorted_pySorted _, nodup_pySorted ((List.nodup_dedup xs).filter _),
    rfl, rfl, rfl⟩
  intro a
  simpa using mem_diff_lists_added [] xs a

/-- Concrete instantiation of the `None`-input behaviour. -/
theorem diff_lists_none_as_empty_witness :
    "a" ∈ (diff_lists_opt none (some ["a", "a"])).1 :=
  ((diff_lists_none_as_empty ["a", "a"]).1 "a").mpr (by decide)

/-- C2: when the stored baseline is missing, the run terminates with exit
status 1 and the fixed two-line diagnostic, and no report is produced — the
result is the same for every possible current-state collector, i.e. neither
collection nor diffing contributes to it. -/
theorem missing_baseline_aborts (collect : Unit → HostState) :
    mainRun none collect = .error (1, baselineNotFoundMsgs)
    ∧ exceptIsOk (mainRun none collect) = false
    ∧ (1 : Nat) ≠ 0 :=
  ⟨rfl, rfl, by decide⟩

/-- Concrete instantiation of the missing-baseline behaviour. -/
theorem missing_baseline_aborts_witness :
    mainRun none (fun _ => emptyState) = .error (1, baselineNotFoundMsgs) :=
  (missing_baseline_aborts (fun _ => emptyState)).1

/-- C1: when every category's added and removed diff sets are empty, the
alerts list of the assembled Report is empty and the rendered alerts section
of the report consists of exactly one `[OK]` line (stating that no
suspicious change was found) and no `[ALERT]` or `[INFO]` line. -/
theorem classifier_single_ok_on_empty_diffs (b c : HostState)
    (h : allDiffsEmpty b c) :
    (mainReport b c).alerts = []
    ∧ reportAlertLines (mainReport b c).alerts = [okMessage]
    ∧ (reportAlertLines (mainReport b c).alerts).countP
        (fun m => hasSeverity "[OK]" m) = 1
    ∧ (reportAlertLines (mainReport b c).alerts).countP
        (fun m => hasSeverity "[ALERT]" m || hasSeverity "[INFO]" m) = 0 := by
  obtain ⟨h1, h2, h3, h4, h5⟩ := h
  have c1 := h5 "/etc/cron.d" (by simp [cron_dir_names])
  have c2 := h5 "/etc/cron.daily" (by simp [cron_dir_names])
  have c3 := h5 "/etc/cron.hourly" (by simp [cron_dir_names])
  have c4 := h5 "/etc/cron.weekly" (by simp [cron_dir_names])
  have c5 := h5 "/etc/cron.monthly" (by simp [cron_dir_names])
  have halerts : (mainReport b c).alerts = [] := by
    show mainAlerts b c = []
    unfold mainAlerts
    rw [h1, h2, h3, h4]
    unfold cron_dir_names
    simp only [List.map_cons, List.map_nil]
    rw [c1, c2, c3, c4, c5]
    rfl
  refine ⟨halerts, ?_, ?_, ?_⟩ <;> rw [halerts] <;> decide

/-- Concrete instantiation: identical baseline and current state yield the
single OK line. -/
theorem classifier_single_ok_on_empty_diffs_witness :
    allDiffsEmpty emptyState emptyState
    ∧ reportAlertLines (mainReport emptyState emptyState).alerts = [okMessage] :=
  ⟨by decide,
   (classifier_single_ok_on_empty_diffs emptyState emptyState (by decide)).2.1⟩

theorem mem_pair_alerts_added {msgA msgR : String} {d : List String × List String}
    (h : d.1 ≠ []) :
    msgA ∈ (if d.1.isEmpty then [] else [msgA])
      ++ (if d.2.isEmpty then [] else [msgR]) := by
  simp [List.isEmpty_iff, h]

theorem mem_pair_alerts_removed {msgA msgR : String} {d : List String × List String}
    (h : d.2 ≠ []) :
    msgR ∈ (if d.1.isEmpty then [] else [msgA])
      ++ (if d.2.isEmpty then [] else [msgR]) := by
  simp [List.isEmpty_iff, h]

theorem ne_nil_of_ten_lt_length {l : List String} (h : 10 < l.length) : l ≠ [] := by
  intro e
  rw [e] at h
  simp at h

theorem take_ten_length {l : List String} (h : 10 < l.length) :
    (l.take 10).length = 10 := by
  simp only [List.length_take]
  omega

theorem ellipsisIf_of_gt {l : List String} (h : 10 < l.length) :
    ellipsisIf l = " ..." := by
  simp [ellipsisIf, h]

/-- C5: for the two display-truncated categories (SUID files and enabled
services), whenever the added (or removed) diff list has more than 10
elements the rendered alert text is the fixed banner followed by the Python
rendering of exactly the first 10 elements and the ` ...` ellipsis marker,
while the Report's `diff` field for that category retains the complete
list. -/
theorem truncation_policy (b c : HostState) :
    ((mainReport b c).diff.suid_added = (diff_lists b.suid_files c.suid_files).1
      ∧ (mainReport b c).diff.suid_removed = (diff_lists b.suid_files c.suid_files).2
      ∧ (mainReport b c).diff.enabled_services_added = (serviceDiff b c).1
      ∧ (mainReport b c).diff.enabled_services_removed = (serviceDiff b c).2)
    ∧ (10 < (diff_lists b.suid_files c.suid_files).1.length →
        suidAddedMsg (diff_lists b.suid_files c.suid_files).1 ∈ (mainReport b c).alerts
        ∧ suidAddedMsg (diff_lists b.suid_files c.suid_files).1
            = "[ALERT] New SUID binaries found: "
              ++ pyListRepr ((diff_lists b.suid_files c.suid_files).1.take 10) ++ " ..."
        ∧ ((diff_lists b.suid_files c.suid_files).1.take 10).length = 10)
    ∧ (10 < (diff_lists b.suid_files c.suid_files).2.length →
        suidRemovedMsg (diff_lists b.suid_files c.suid_files).2 ∈ (mainReport b c).alerts
        ∧ suidRemovedMsg (diff_lists b.suid_files c.suid_files).2
            = "[INFO] SUID binaries removed: "
              ++ pyListRepr ((diff_lists b.suid_files c.suid_files).2.take 10) ++ " ..."
        ∧ ((diff_lists b.suid_files c.suid_files).2.take 10).length = 10)
    ∧ (10 < (serviceDiff b c).1.length →
        servicesAddedMsg (serviceDiff b c).1 ∈ (mainReport b c).alerts
        ∧ servicesAddedMsg (serviceDiff b c).1
            = "[ALERT] New enabled service entries detected (possible persistence): "
              ++ pyListRepr ((serviceDiff b c).1.take 10) ++ " ..."
        ∧ ((serviceDiff b c).1.take 10).length = 10)
    ∧ (10 < (serviceDiff b c).2.length →
        servicesRemovedMsg (serviceDiff b c).2 ∈ (mainReport b c).alerts
        ∧ servicesRemovedMsg (serviceDiff b c).2
            = "[INFO] Enabled service entries removed: "
              ++ pyListRepr ((serviceDiff b c).2.take 10) ++ " ..."
        ∧ ((serviceDiff b c).2.take 10).length = 10) := by
  refine ⟨⟨rfl, rfl, rfl, rfl⟩, ?_, ?_, ?_, ?_⟩
  · intro h
    refine ⟨?_, ?_, take_ten_length h⟩
    · have hmem := @mem_pair_alerts_added
        (suidAddedMsg (diff_lists b.suid_files c.suid_files).1)
        (suidRemovedMsg (diff_lists b.suid_files c.suid_files).2)
        (diff_lists b.suid_files c.suid_files) (ne_nil_of_ten_lt_length h)
      show _ ∈ mainAlerts b c
      exact List.mem_append_left _ (List.mem_append_left _
        (List.mem_append_left _ (List.mem_append_right _ hmem)))
    · show "[ALERT] New SUID binaries found: " ++ _ ++ ellipsisIf _ = _
      rw [ellipsisIf_of_gt h]
  · intro h
    refine ⟨?_, ?_, take_ten_length h⟩
    · have hmem := @mem_pair_alerts_removed
        (suidAddedMsg (diff_lists b.suid_files c.suid_files).1)
        (suidRemovedMsg (diff_lists b.suid_files c.suid_files).2)
        (diff_lists b.suid_files c.suid_files) (ne_nil_of_ten_lt_length h)
      show _ ∈ mainAlerts b c
      exact List.mem_append_left _ (List.mem_append_left _
        (List.mem_append_left _ (List.mem_append_right _ hmem)))
    · show "[INFO] SUID binaries removed: " ++ _ ++ ellipsisIf _ = _
      rw [ellipsisIf_of_gt h]
  · intro h
    refine ⟨?_, ?_, take_ten_length h⟩
    · have hmem := @mem_pair_alerts_added
        (servicesAddedMsg (serviceDiff b c).1)
        (servicesRemovedMsg (serviceDiff b c).2)
        (serviceDiff b c) (ne_nil_of_ten_lt_length h)
      show _ ∈ mainAlerts b c
      exact List.mem_append_left _ (List.mem_append_right _ hmem)
    · show "[ALERT] New enabled service entries detected (possible persistence): "
          ++ _ ++ ellipsisIf _ = _
      rw [ellipsisIf_of_gt h]
  · intro h
    refine ⟨?_, ?_, take_ten_length h⟩
    · have hmem := @mem_pair_alerts_removed
        (servicesAddedMsg (serviceDiff b c).1)
        (servicesRemovedMsg (serviceDiff b c).2)
        (serviceDiff b c) (ne_nil_of_ten_lt_length h)
      show _ ∈ mainAlerts b c
      exact List.mem_append_left _ (List.mem_append_right _ hmem)
    · show "[INFO] Enabled service entries removed: " ++ _ ++ ellipsisIf _ = _
      rw [ellipsisIf_of_gt h]

/-- Baseline with 11 SUID paths that will all be removed. -/
def truncB : HostState :=
  { emptyState with
      suid_files := ["/u/r00", "/u/r01", "/u/r02", "/u/r03", "/u/r04", "/u/r05",
        "/u/r06", "/u/r07", "/u/r08", "/u/r09", "/u/r10"] }

/-- Current state with 11 new SUID paths. -/
def truncC : HostState :=
  { emptyState with
      suid_files := ["/u/a00", "/u/a01", "/u/a02", "/u/a03", "/u/a04", "/u/a05",
        "/u/a06", "/u/a07", "/u/a08", "/u/a09", "/u/a10"] }

/-- Concrete instantiation of the truncation policy: with 11 added SUID
binaries the truncated alert is rendered and the full list is kept in the
report diff. -/
theorem truncation_policy_witness :
    10 < (diff_lists truncB.suid_files truncC.suid_files).1.length
    ∧ suidAddedMsg (diff_lists truncB.suid_files truncC.suid_files).1
        ∈ (mainReport truncB truncC).alerts
    ∧ (mainReport truncB truncC).diff.suid_added
        = (diff_lists truncB.suid_files truncC.suid_files).1 :=
  ⟨by decide, ((truncation_policy truncB truncC).2.1 (by decide)).1,
   (truncation_policy truncB truncC).1.1⟩

theorem diff_lists_added_filter_right (old new : List String) :
    (diff_lists (old.filter (fun u => decide (u ∈ new))) new).1
      = (diff_lists old new).1 := by
  show pySorted _ = pySorted _
  congr 1
  apply List.filter_congr
  intro x hx
  have hxnew : x ∈ new := List.mem_dedup.mp hx
  simp [List.mem_dedup, List.mem_filter, hxnew]

theorem hasSeverity_append (tag head rest : String)
    (h : pyStartsWith head tag = true) :
    hasSeverity tag (head ++ rest) = true := by
  unfold pyStartsWith at h
  unfold hasSeverity pyStartsWith
  rw [List.isPrefixOf_iff_prefix] at h ⊢
  exact h.trans (strData_append head rest ▸ List.prefix_append head.data rest.data)

/-- C8: removals in the uid-0 category are never evaluated — the whole
Report is unchanged when every baseline-only uid-0 account is erased from
the baseline (so no alert of any severity can concern them); the Report's
diff carries the added uid-0 accounts (and, structurally, `ReportDiff` has
no removed field for this category); and a non-empty added set always
produces the `[ALERT]` message. -/
theorem uid0_removals_never_evaluated (b c : HostState) :
    mainReport
        { b with uid0_users := b.uid0_users.filter (fun u => decide (u ∈ c.uid0_users)) } c
      = mainReport b c
    ∧ (mainReport b c).diff.uid0_added = (diff_lists b.uid0_users c.uid0_users).1
    ∧ ((diff_lists b.uid0_users c.uid0_users).1 ≠ [] →
        uid0AlertMsg (diff_lists b.uid0_users c.uid0_users).1 ∈ (mainReport b c).alerts
        ∧ hasSeverity "[ALERT]"
            (uid0AlertMsg (diff_lists b.uid0_users c.uid0_users).1) = true) := by
  refine ⟨?_, rfl, ?_⟩
  · simp [mainReport, mainAlerts, serviceDiff, cronList,
      diff_lists_added_filter_right]
  · intro h
    constructor
    · have hmem : uid0AlertMsg (diff_lists b.uid0_users c.uid0_users).1
          ∈ uid0Alerts (diff_lists b.uid0_users c.uid0_users).1 := by
        simp [uid0Alerts, List.isEmpty_iff, h]
      show _ ∈ mainAlerts b c
      exact List.mem_append_left _ (List.mem_append_left _
        (List.mem_append_left _ (List.mem_append_left _ hmem)))
    · exact hasSeverity_append "[ALERT]" "[ALERT] New UID=0 user(s) detected: "
        (pyListRepr (diff_lists b.uid0_users c.uid0_users).1) (by decide)

/-- Baseline with a uid-0 account (`ghost`) that disappears and a current
state with a new uid-0 account (`backdoor`). -/
def uid0B : HostState := { emptyState with uid0_users := ["root", "ghost"] }

/-- Current-state counterpart of `uid0B`. -/
def uid0C : HostState := { emptyState with uid0_users := ["root", "backdoor"] }

/-- Concrete instantiation: the report ignores the removed `ghost` account
and raises the ALERT for the added `backdoor` account. -/
theorem uid0_removals_never_evaluated_witness :
    (diff_lists uid0B.uid0_users uid0C.uid0_users).1 ≠ []
    ∧ uid0AlertMsg (diff_lists uid0B.uid0_users uid0C.uid0_users).1
        ∈ (mainReport uid0B uid0C).alerts
    ∧ mainReport { uid0B with
          uid0_users := uid0B.uid0_users.filter (fun u => decide (u ∈ uid0C.uid0_users)) }
        uid0C
      = mainReport uid0B uid0C :=
  ⟨by decide,
   ((uid0_removals_never_evaluated uid0B uid0C).2.2 (by decide)).1,
   (uid0_removals_never_evaluated uid0B uid0C).1⟩

theorem foldl_collectUsersStep (lines : List String)
    (acc : List UserEntry × List String) :
    lines.foldl collectUsersStep acc
      = (acc.1 ++ lines.filterMap parsePasswdLine,
         acc.2 ++ (((lines.filterMap parsePasswdLine).filter
            (fun e => decide (e.uid = 0))).map UserEntry.user)) := by
  induction lines generalizing acc with
  | nil => simp
  | cons line rest ih =>
    rw [List.foldl_cons, ih]
    cases hp : parsePasswdLine line with
    | none => simp [collectUsersStep, hp]
    | some u =>
      by_cases hu : u.uid = 0
      · simp [collectUsersStep, hp, hu]
      · simp [collectUsersStep, hp, hu]

theorem collect_users_fields (passwd : String) :
    (collect_users passwd).users = (splitlines passwd).filterMap parsePasswdLine
    ∧ (collect_users passwd).uid0_users
      = pySorted ((((splitlines passwd).filterMap parsePasswdLine).filter
          (fun e => decide (e.uid = 0))).map UserEntry.user) := by
  constructor <;>
    simp [collect_users, foldl_collectUsersStep (splitlines passwd) ([], [])]

/-- C9 (amended): for every raw account-database input, every username in
`uid0_users` appears as the username of some entry in `users`, and a
username is in `uid0_users` exactly when some `users` entry carries that
username with uid 0.  (The claim's per-entry form — an entry's username is
in `uid0_users` iff that entry's uid is 0 — fails when one username occurs
with both a zero and a non-zero uid; see the counterexample.) -/
theorem uid0_accounts_subset_and_exact (passwd : String) :
    (∀ u ∈ (collect_users passwd).uid0_users,
      ∃ e ∈ (collect_users passwd).users, e.user = u)
    ∧ (∀ u, u ∈ (collect_users passwd).uid0_users
        ↔ ∃ e ∈ (collect_users passwd).users, e.uid = 0 ∧ e.user = u) := by
  have hf := collect_users_fields passwd
  have hmem : ∀ u, u ∈ (collect_users passwd).uid0_users
      ↔ ∃ e ∈ (collect_users passwd).users, e.uid = 0 ∧ e.user = u := by
    intro u
    rw [hf.1, hf.2]
    simp [mem_pySorted, List.mem_map, List.mem_filter]
    constructor
    · rintro ⟨e, ⟨he, h0⟩, hu⟩
      exact ⟨e, he, h0, hu⟩
    · rintro ⟨e, he, h0, hu⟩
      exact ⟨e, ⟨he, h0⟩, hu⟩
  exact ⟨fun u hu => by
    obtain ⟨e, he, _, heq⟩ := (hmem u).mp hu
    exact ⟨e, he, heq⟩, hmem⟩

/-- An account database in which `root` occurs with uid 0 and again with
uid 5. -/
def dupPasswd : String := "root:x:0:\nroot:x:5:"

/-- C9 counterexample: on `dupPasswd` the claim's per-entry biconditional
fails — the entry `(root, 5)` has its username in `uid0_users` although its
uid is not 0. -/
theorem uid0_pointwise_iff_false :
    ¬ ∀ e ∈ (collect_users dupPasswd).users,
        (e.user ∈ (collect_users dupPasswd).uid0_users ↔ e.uid = 0) := by
  decide

/-- Concrete instantiation of the amended uid-0 invariant. -/
theorem uid0_accounts_subset_and_exact_witness :
    "root" ∈ (collect_users "root:x:0:").uid0_users
    ∧ ∃ e ∈ (collect_users "root:x:0:").users, e.user = "root" :=
  ⟨by decide,
   (uid0_accounts_subset_and_exact "root:x:0:").1 "root" (by decide)⟩

/-- An account database with one well-formed line, one comment line (fewer
than three `:`-fields) and one line with a non-numeric uid field. -/
def mixedPasswd : String := "root:x:0:0:root:/root:/bin/sh\n# system accounts"

/-- A single account line whose uid field is not numeric. -/
def badUidPasswd : String := "sync:x:notanumber:"

/-- C6 evaluation: the detector's builder (`collect_users`) skips the
malformed lines and keeps the well-formed one, but the baseline collector's
builder aborts with an uncaught `IndexError` on the comment line and with an
uncaught `ValueError` on the non-numeric uid — so building the accounts
fields from these inputs does fail. -/
theorem baseline_user_collection_fails :
    baselineCollectUsers mixedPasswd = .error .indexError
    ∧ baselineCollectUsers badUidPasswd = .error .valueError
    ∧ (collect_users mixedPasswd).users = [⟨"root", 0⟩]
    ∧ (collect_users mixedPasswd).uid0_users = ["root"]
    ∧ (collect_users badUidPasswd).users = [] := by
  refine ⟨rfl, rfl, ?_, ?_, ?_⟩ <;> decide

/-- Subprocess outcomes in which `find` on `/sbin` terminates with a
`CalledProcessError` (non-zero exit) and every other directory scan returns
empty output. -/
def findFails : String → CmdOutcome :=
  fun d => if d = "/sbin" then .processError else .ok ""

/-- C7 evaluation: the detector's `run_cmd`-based SUID scan degrades the
failing call to an empty result, but the baseline collector's SUID scan
catches only `TimeoutExpired`, so the same `CalledProcessError` escapes the
loop and aborts the baseline run. -/
theorem baseline_suid_scan_aborts :
    baselineSuidScan findFails = .error ()
    ∧ collect_suid_limited findFails = []
    ∧ runCmd .processError = ""
    ∧ runCmd .timeoutExpired = ""
    ∧ baselineSuidScan (fun _ => .timeoutExpired) = .ok [] := by
  refine ⟨rfl, ?_, ?_, ?_, rfl⟩ <;> decide
